import Mathlib

/-!
Shallow embedding of the engagement analysis engine of the
Social-Media-Content-Analyzer repository
(`backend/services/engagementService.js`).

Modelling conventions:
* text is a Lean `String`, processed as its `List Char` of Unicode code points;
* JS numbers are `ℤ` (integer-valued scores and counts) or `ℚ` (averages,
  densities); `Math.round` on an integer value is the identity and is dropped;
* a JS division whose result would be `NaN`/`Infinity` (divisor 0) is an
  `Option ℚ` that is `none` exactly in that case;
* the stringly-typed enum fields of the source (`strength`, `status`, ...)
  stay `String`s;
* the two structurally different result shapes of `analyzeEngagement` (the
  canned empty-input object and the full one) are the two constructors of
  `AnalysisPayload`, and the heterogeneous `suggestions` array (plain strings
  in the empty branch, suggestion objects otherwise) is a list of
  `SuggestionItem`.
-/

namespace Engagement

/-- JS `\w` character class: ASCII letters, digits and underscore. -/
def isWordChar (c : Char) : Bool := c.isAlphanum || c == '_'

/-- JS `\s` character class, as used by `split(/\s+/)` and `trim()`. -/
def isWs (c : Char) : Bool :=
  c.toNat == 9 || c.toNat == 10 || c.toNat == 11 || c.toNat == 12 ||
  c.toNat == 13 || c.toNat == 32 || c.toNat == 160 || c.toNat == 5760 ||
  (decide (8192 ≤ c.toNat) && decide (c.toNat ≤ 8202)) ||
  c.toNat == 8232 || c.toNat == 8233 || c.toNat == 8239 ||
  c.toNat == 8287 || c.toNat == 12288 || c.toNat == 65279

lemma dropWhile_length_le (p : Char → Bool) (l : List Char) :
    (l.dropWhile p).length ≤ l.length := by
  induction l with
  | nil => simp [List.dropWhile]
  | cons c rest ih =>
      by_cases h : p c
      · simp only [List.dropWhile_cons, h, if_pos, List.length_cons]
        omega
      · simp [List.dropWhile_cons, h]

/-- JS `String.prototype.split` against a one-character-class regex such as
`/\\s+/`: separators are maximal runs of characters satisfying `p`, and empty
segments are kept at both ends (`"".split(/\\s+/)` is `[""]`, `" ".split(/\\s+/)`
is `["", ""]`).  The state is the current segment, reversed, or `none` while a
separator run is being consumed. -/
def splitGo (p : Char → Bool) : List Char → Option (List Char) → List (List Char)
  | [], Option.none => [[]]
  | [], Option.some acc => [acc.reverse]
  | c :: rest, Option.none =>
      if p c then splitGo p rest Option.none
      else splitGo p rest (Option.some [c])
  | c :: rest, Option.some acc =>
      if p c then acc.reverse :: splitGo p rest Option.none
      else splitGo p rest (Option.some (c :: acc))

def splitRe (p : Char → Bool) (l : List Char) : List (List Char) :=
  splitGo p l (Option.some [])

/-- Scanner state for JS global matching of a regex of the shape `/m[\\w]+/g`
(the hashtag and mention patterns): outside any candidate, just past the marker
character, or inside a match with the (reversed) characters matched so far. -/
inductive ScanState where
  | out
  | mark
  | inside (acc : List Char)
deriving DecidableEq

/-- JS global matching of `/m[\\w]+/g`: scan left to right; at the marker
character followed by at least one word character, the maximal word-char run
becomes the next match. -/
def scanGo (mark : Char) : List Char → ScanState → List (List Char)
  | [], ScanState.out => []
  | [], ScanState.mark => []
  | [], ScanState.inside acc => [acc.reverse]
  | c :: rest, ScanState.out =>
      if c = mark then scanGo mark rest ScanState.mark
      else scanGo mark rest ScanState.out
  | c :: rest, ScanState.mark =>
      if isWordChar c then scanGo mark rest (ScanState.inside [c, mark])
      else if c = mark then scanGo mark rest ScanState.mark
      else scanGo mark rest ScanState.out
  | c :: rest, ScanState.inside acc =>
      if isWordChar c then scanGo mark rest (ScanState.inside (c :: acc))
      else if c = mark then acc.reverse :: scanGo mark rest ScanState.mark
      else acc.reverse :: scanGo mark rest ScanState.out

def scanTags (mark : Char) (l : List Char) : List (List Char) :=
  scanGo mark l ScanState.out

/-- JS `String.prototype.includes`: substring containment. -/
def jsIncludes (s sub : List Char) : Bool :=
  s.tails.any (fun t => sub.isPrefixOf t)

/-- JS `String.prototype.trim`. -/
def jsTrim (l : List Char) : List Char :=
  ((l.dropWhile isWs).reverse.dropWhile isWs).reverse

def jsTrimS (s : String) : String := String.mk (jsTrim s.data)

/-- JS `String.prototype.toLowerCase` (ASCII range; the lexicons are ASCII). -/
def jsToLower (l : List Char) : List Char := l.map Char.toLower

/-- JS `Math.round` on an exact rational value. -/
def jsRound (q : ℚ) : ℤ := ⌊q + 1 / 2⌋

/-- JS division, `none` when the divisor is `0` (where JS would produce
`NaN` or `Infinity`). -/
def jsDiv (a b : ℚ) : Option ℚ := if b = 0 then Option.none else Option.some (a / b)

/-- First-occurrence deduplication, as `[...new Set(xs)]` does in JS. -/
def dedupSeen (seen : List Char) : List Char → List Char
  | [] => []
  | c :: rest => if c ∈ seen then dedupSeen seen rest else c :: dedupSeen (c :: seen) rest

def dedupFirst (l : List Char) : List Char := dedupSeen [] l

/-! Feature records, one per extractor (source lines 59–223). -/

structure HashtagFeature where
  found : ℕ
  recommended : ℕ
  list : List (List Char)
  density : Option ℚ
deriving DecidableEq

structure MentionFeature where
  found : ℕ
  recommended : ℕ
  list : List (List Char)
deriving DecidableEq

structure CallToActionFeature where
  found : Bool
  strength : String
  words : List (List Char)
  count : ℕ
deriving DecidableEq

structure LengthFeature where
  characters : ℕ
  words : ℕ
  platform : String
  optimal : String
  status : String
deriving DecidableEq

structure ReadabilityFeature where
  score : ℤ
  level : String
  avgWordsPerSentence : ℚ
  sentences : ℕ
  complexity : String
deriving DecidableEq

structure SentimentFeature where
  tone : String
  engagement : String
  positiveWords : ℕ
  negativeWords : ℕ
  engagementWords : ℕ
deriving DecidableEq

structure EmojiFeature where
  found : ℕ
  list : List Char
  density : Option ℚ
deriving DecidableEq

/-- Source `analyzeHashtags` (source lines 59–69): regex `/#[\w]+/g`. -/
def analyzeHashtags (text : String) : HashtagFeature :=
  let hashtags := scanTags '#' text.data
  { found := hashtags.length
    recommended := if hashtags.length < 3 then 3 else hashtags.length
    list := hashtags
    density := Option.map (fun q => q * 100)
      (jsDiv (hashtags.length : ℚ) (((splitRe isWs text.data).length : ℕ) : ℚ)) }

/-- Source `analyzeMentions` (source lines 74–83): regex `/@[\w]+/g`. -/
def analyzeMentions (text : String) : MentionFeature :=
  let mentions := scanTags '@' text.data
  { found := mentions.length
    recommended := if mentions.length < 2 then 2 else mentions.length
    list := mentions }

/-- The fixed CTA lexicon (source lines 89–93). -/
def ctaWords : List (List Char) :=
  [("click").data, ("buy").data, ("shop").data, ("download").data,
   ("subscribe").data, ("follow").data, ("share").data, ("like").data,
   ("comment").data, ("join").data, ("sign up").data, ("get started").data,
   ("learn more").data, ("discover").data, ("explore").data, ("try").data,
   ("watch").data, ("read").data, ("visit").data, ("check out").data]

/-- Source `analyzeCallToAction` (source lines 88–109). -/
def analyzeCallToAction (text : String) : CallToActionFeature :=
  let lowerText := jsToLower text.data
  let foundCTAs := ctaWords.filter (fun cta => jsIncludes lowerText cta)
  let strength : String :=
    if 3 ≤ foundCTAs.length then ("strong")
    else if 2 ≤ foundCTAs.length then ("medium")
    else if 1 ≤ foundCTAs.length then ("weak")
    else ("none")
  { found := decide (0 < foundCTAs.length)
    strength := strength
    words := foundCTAs
    count := foundCTAs.length }

/-- Source `analyzeLength` (source lines 114–139).  The `general` defaults are the
initial values of the source's mutable locals; the two branches mirror the
source's `if (charCount > 280) ... else if (charCount <= 280) ...`. -/
def analyzeLength (text : String) : LengthFeature :=
  let charCount := text.data.length
  let wordCount := ((splitRe isWs text.data).filter (fun w => 0 < w.length)).length
  let pos : String × String × String :=
    if 280 < charCount then
      (("linkedin"), ("100-300"), if 500 < charCount then ("too_long") else ("good"))
    else if charCount ≤ 280 then
      (("twitter"), ("140-280"), if charCount < 100 then ("too_short") else ("good"))
    else
      (("general"), ("140-280"), ("good"))
  { characters := charCount
    words := wordCount
    platform := pos.1
    optimal := pos.2.1
    status := pos.2.2 }

/-- Source `analyzeReadability` (source lines 144–176).  Sentences are the non-blank
segments of a split on runs of `.`, `!`, `?`. -/
def analyzeReadability (text : String) : ReadabilityFeature :=
  let isSentTerm : Char → Bool := fun c => c == '.' || c == '!' || c == '?'
  let sentences :=
    ((splitRe isSentTerm text.data).filter (fun s => 0 < (jsTrim s).length)).length
  let words := ((splitRe isWs text.data).filter (fun w => 0 < w.length)).length
  let avgWordsPerSentence : ℚ :=
    if 0 < sentences then (words : ℚ) / (sentences : ℚ) else 0
  let score1 : ℤ := if 20 < avgWordsPerSentence then 100 - 30
    else if 15 < avgWordsPerSentence then 100 - 15 else 100
  let level1 : String := if 20 < avgWordsPerSentence then ("difficult")
    else if 15 < avgWordsPerSentence then ("moderate") else ("excellent")
  let score2 : ℤ := if words < 10 then score1 - 20 else score1
  let level2 : String := if words < 10 then ("too_short") else level1
  { score := max 0 (min 100 score2)
    level := level2
    avgWordsPerSentence := ((jsRound (avgWordsPerSentence * 10) : ℤ) : ℚ) / 10
    sentences := sentences
    complexity := if 15 < avgWordsPerSentence then ("high")
      else if 10 < avgWordsPerSentence then ("medium") else ("low") }

/-- The three sentiment lexicons (source lines 182–184). -/
def positiveWordsLex : List (List Char) :=
  [("great").data, ("awesome").data, ("amazing").data, ("excellent").data,
   ("fantastic").data, ("love").data, ("best").data, ("perfect").data,
   ("wonderful").data, ("incredible").data, ("outstanding").data, ("brilliant").data]

def negativeWordsLex : List (List Char) :=
  [("bad").data, ("terrible").data, ("awful").data, ("hate").data,
   ("worst").data, ("horrible").data, ("disappointing").data, ("failed").data,
   ("broken").data, ("useless").data]

def engagementWordsLex : List (List Char) :=
  [("new").data, ("exciting").data, ("innovative").data, ("revolutionary").data,
   ("breakthrough").data, ("exclusive").data, ("limited").data, ("special").data,
   ("unique").data, ("trending").data]

/-- Source `analyzeSentiment` (source lines 181–209). -/
def analyzeSentiment (text : String) : SentimentFeature :=
  let lowerText := jsToLower text.data
  let positiveCount := (positiveWordsLex.filter (fun w => jsIncludes lowerText w)).length
  let negativeCount := (negativeWordsLex.filter (fun w => jsIncludes lowerText w)).length
  let engagementCount := (engagementWordsLex.filter (fun w => jsIncludes lowerText w)).length
  { tone := if negativeCount < positiveCount then ("positive")
      else if positiveCount < negativeCount then ("negative") else ("neutral")
    engagement := if 3 ≤ engagementCount then ("high")
      else if 1 ≤ engagementCount then ("medium") else ("low")
    positiveWords := positiveCount
    negativeWords := negativeCount
    engagementWords := engagementCount }

/-- The emoji character classes of the source regex
`/[\u{1F300}-\u{1F6FF}]|[\u{1F900}-\u{1F9FF}]|[\u{2600}-\u{26FF}]|[\u{2700}-\u{27BF}]/gu`. -/
def isEmojiChar (c : Char) : Bool :=
  (decide (127744 ≤ c.toNat) && decide (c.toNat ≤ 128767)) ||
  (decide (129280 ≤ c.toNat) && decide (c.toNat ≤ 129535)) ||
  (decide (9728 ≤ c.toNat) && decide (c.toNat ≤ 9983)) ||
  (decide (9984 ≤ c.toNat) && decide (c.toNat ≤ 10175))

/-- Source `analyzeEmojis` (source lines 214–223); every match of the regex is a
single code point. -/
def analyzeEmojis (text : String) : EmojiFeature :=
  let emojis := text.data.filter isEmojiChar
  { found := emojis.length
    list := dedupFirst emojis
    density := Option.map (fun q => q * 100)
      (jsDiv (emojis.length : ℚ) (((splitRe isWs text.data).length : ℕ) : ℚ)) }

/-! Suggestion generation (source lines 228–343). -/

structure Suggestion where
  type : String
  priority : String
  icon : String
  title : String
  description : String
  example' : String
deriving DecidableEq

/-- Suggestion pushed when no hashtag is present (source lines 233–240). -/
def sugAddHashtags : Suggestion :=
  { type := ("hashtags"), priority := ("high"), icon := ("🏷️")
    title := ("Add Hashtags for Discoverability")
    description := ("Include 2-3 relevant hashtags to increase reach and engagement")
    example' := ("#innovation #tech #socialmedia") }

/-- Suggestion pushed when more than five hashtags are present (lines 242–249). -/
def sugReduceHashtags : Suggestion :=
  { type := ("hashtags"), priority := ("medium"), icon := ("⚠️")
    title := ("Reduce Hashtag Count")
    description := ("Too many hashtags can appear spammy. Keep it to 3-5 relevant ones")
    example' := ("Focus on your top 3 most relevant hashtags") }

/-- Suggestion pushed when no call-to-action is found (lines 254–261). -/
def sugAddCTA : Suggestion :=
  { type := ("cta"), priority := ("high"), icon := ("👆")
    title := ("Include a Clear Call-to-Action")
    description := ("Add a specific action you want your audience to take")
    example' := ("\x22What do you think? Share your thoughts in comments!\x22") }

/-- Suggestion pushed when the call-to-action is weak (lines 263–270). -/
def sugStrengthenCTA : Suggestion :=
  { type := ("cta"), priority := ("medium"), icon := ("💪")
    title := ("Strengthen Your Call-to-Action")
    description := ("Make your call-to-action more compelling and specific")
    example' := ("Use stronger verbs like \x22discover\x22, \x22explore\x22, or \x22join\x22") }

/-- Suggestion pushed when the content is too long (lines 275–282). -/
def sugShortenContent : Suggestion :=
  { type := ("length"), priority := ("medium"), icon := ("✂️")
    title := ("Shorten Your Content")
    description := ("Consider breaking long content into multiple posts or key points")
    example' := ("Aim for 140-280 characters for better engagement") }

/-- Suggestion pushed when the content is too short (lines 284–291). -/
def sugAddContext : Suggestion :=
  { type := ("length"), priority := ("low"), icon := ("📝")
    title := ("Add More Context")
    description := ("Provide more details or context to engage your audience better")
    example' := ("Add background information or personal insights") }

/-- Suggestion pushed when there is no mention (lines 296–303). -/
def sugTagPeople : Suggestion :=
  { type := ("mentions"), priority := ("medium"), icon := ("👥")
    title := ("Tag Relevant People or Brands")
    description := ("Mention relevant accounts to increase visibility and engagement")
    example' := ("@company @influencer or industry leaders") }

/-- Suggestion pushed when there is no emoji (lines 308–315). -/
def sugAddEmojis : Suggestion :=
  { type := ("emojis"), priority := ("low"), icon := ("😊")
    title := ("Add Emojis for Visual Appeal")
    description := ("Emojis can increase engagement and make content more approachable")
    example' := ("🚀 ✨ 💡 for tech content") }

/-- Suggestion pushed when readability is difficult (lines 320–327). -/
def sugImproveReadability : Suggestion :=
  { type := ("readability"), priority := ("high"), icon := ("📚")
    title := ("Improve Readability")
    description := ("Break long sentences into shorter, more digestible chunks")
    example' := ("Keep sentences under 15-20 words for better engagement") }

/-- Suggestion pushed when engagement language is low (lines 332–339). -/
def sugEngagingLanguage : Suggestion :=
  { type := ("engagement"), priority := ("medium"), icon := ("🔥")
    title := ("Use More Engaging Language")
    description := ("Add excitement and energy to capture attention")
    example' := ("Use words like \x22amazing\x22, \x22breakthrough\x22, \x22exclusive\x22") }

/-- The full analysis object assembled by `analyzeEngagement` for non-empty
input (source lines 31–39). -/
structure Analysis where
  hashtags : HashtagFeature
  mentions : MentionFeature
  callToAction : CallToActionFeature
  length : LengthFeature
  readability : ReadabilityFeature
  sentiment : SentimentFeature
  emojis : EmojiFeature
deriving DecidableEq

/-- Source `generateSuggestions` (source lines 228–343): a sequence of conditional
pushes onto an initially empty array, each `suggestions ++ (...)` rendering one
of the source's `if / else if` push blocks. -/
def generateSuggestions (analysis : Analysis) : List Suggestion :=
  let suggestions : List Suggestion := []
  let suggestions := suggestions ++
    (if analysis.hashtags.found = 0 then [sugAddHashtags]
     else if 5 < analysis.hashtags.found then [sugReduceHashtags]
     else [])
  let suggestions := suggestions ++
    (if analysis.callToAction.found = false then [sugAddCTA]
     else if analysis.callToAction.strength = ("weak") then [sugStrengthenCTA]
     else [])
  let suggestions := suggestions ++
    (if analysis.length.status = ("too_long") then [sugShortenContent]
     else if analysis.length.status = ("too_short") then [sugAddContext]
     else [])
  let suggestions := suggestions ++
    (if analysis.mentions.found = 0 then [sugTagPeople] else [])
  let suggestions := suggestions ++
    (if analysis.emojis.found = 0 then [sugAddEmojis] else [])
  let suggestions := suggestions ++
    (if analysis.readability.level = ("difficult") then [sugImproveReadability] else [])
  let suggestions := suggestions ++
    (if analysis.sentiment.engagement = ("low") then [sugEngagingLanguage] else [])
  suggestions

/-- Source `calculateEngagementScore` (source lines 348–383): base 50, sequential
additive adjustments (each `score + (...)` renders one of the source's
`score += / score -=` if-chains).  The literal `0.2` is modelled as the exact
rational `2 / 10`; for the integer readability scores in `[0, 100]` the
rounded result agrees with the source's double computation, because the
fractional part of `n / 5` is never one half.  The sum is finished by
`Math.max(0, Math.min(100, Math.round(score)))` — the round is the identity,
the intermediate value being an integer. -/
def calculateEngagementScore (analysis : Analysis) : ℤ :=
  let score : ℤ := 50
  let score := score +
    (if 2 ≤ analysis.hashtags.found ∧ analysis.hashtags.found ≤ 5 then 15
     else if 1 ≤ analysis.hashtags.found then 10 else -10)
  let score := score +
    (if analysis.callToAction.strength = ("strong") then 20
     else if analysis.callToAction.strength = ("medium") then 15
     else if analysis.callToAction.strength = ("weak") then 10 else -15)
  let score := score +
    (if analysis.length.status = ("good") then 15
     else if analysis.length.status = ("too_long") then -5
     else if analysis.length.status = ("too_short") then -10 else 0)
  let score := score + jsRound ((analysis.readability.score : ℚ) * (2 / 10))
  let score := score +
    (if analysis.sentiment.engagement = ("high") then 15
     else if analysis.sentiment.engagement = ("medium") then 10 else -5)
  let score := score +
    (if 1 ≤ analysis.mentions.found ∧ analysis.mentions.found ≤ 3 then 10
     else if 3 < analysis.mentions.found then -5 else 0)
  let score := score +
    (if 1 ≤ analysis.emojis.found ∧ analysis.emojis.found ≤ 3 then 5 else 0)
  max 0 (min 100 score)

/-- Source `getEngagementGrade` (source lines 388–395). -/
def getEngagementGrade (score : ℤ) : String :=
  if 90 ≤ score then ("A+")
  else if 80 ≤ score then ("A")
  else if 70 ≤ score then ("B")
  else if 60 ≤ score then ("C")
  else if 50 ≤ score then ("D")
  else ("F")

/-- Source `generateOptimizedVersion` (source lines 400–415). -/
def generateOptimizedVersion (text : String) (analysis : Analysis) : String :=
  let optimized := jsTrimS text
  let optimized :=
    if analysis.hashtags.found = 0 then
      optimized ++ ("\n\n") ++ String.intercalate (" ")
        [("#content"), ("#engagement"), ("#socialmedia")]
    else optimized
  let optimized :=
    if analysis.callToAction.found = false then
      optimized ++ ("\n\nWhat are your thoughts? Share in the comments! 👇")
    else optimized
  optimized

/-! The canned result returned for empty or all-whitespace input
(source lines 14–27).  Its `analysis` object has a different shape from the
full one: fewer fields per record, a `current` field instead of `characters`,
and no `emojis` record at all. -/

structure CannedHashtag where
  found : ℕ
  recommended : ℕ
deriving DecidableEq

structure CannedMention where
  found : ℕ
  recommended : ℕ
deriving DecidableEq

structure CannedCTA where
  found : Bool
  strength : String
deriving DecidableEq

structure CannedLength where
  current : ℕ
  optimal : String
deriving DecidableEq

structure CannedReadability where
  score : ℤ
  level : String
deriving DecidableEq

structure CannedSentiment where
  tone : String
  engagement : String
deriving DecidableEq

/-- The canned analysis object of source lines 18–25; note the absence of an
`emojis` record. -/
structure CannedAnalysis where
  hashtags : CannedHashtag
  mentions : CannedMention
  callToAction : CannedCTA
  length : CannedLength
  readability : CannedReadability
  sentiment : CannedSentiment
deriving DecidableEq

def defaultCannedAnalysis : CannedAnalysis :=
  { hashtags := { found := 0, recommended := 3 }
    mentions := { found := 0, recommended := 2 }
    callToAction := { found := false, strength := ("none") }
    length := { current := 0, optimal := ("140-280") }
    readability := { score := 0, level := ("poor") }
    sentiment := { tone := ("neutral"), engagement := ("low") } }

/-- The dynamically shaped `analysis` field of the result: either the canned
six-record object of the empty branch or the full seven-record object. -/
inductive AnalysisPayload where
  | canned (a : CannedAnalysis)
  | full (a : Analysis)
deriving DecidableEq

/-- Observation on the result payload: does the `analysis` object carry an
`emojis` feature record?  The canned shape (source lines 18–25) does not. -/
def payloadHasEmojiRecord : AnalysisPayload → Bool
  | AnalysisPayload.canned _ => false
  | AnalysisPayload.full _ => true

/-- An element of the heterogeneous `suggestions` array: a plain string in the
empty branch, a suggestion object otherwise. -/
inductive SuggestionItem where
  | text (s : String)
  | card (s : Suggestion)
deriving DecidableEq

structure AnalysisResult where
  score : ℤ
  grade : String
  suggestions : List SuggestionItem
  analysis : AnalysisPayload
  optimizedContent : Option String
deriving DecidableEq

/-- The seven extractor calls of source lines 31–39. -/
def buildAnalysis (text : String) : Analysis :=
  { hashtags := analyzeHashtags text
    mentions := analyzeMentions text
    callToAction := analyzeCallToAction text
    length := analyzeLength text
    readability := analyzeReadability text
    sentiment := analyzeSentiment text
    emojis := analyzeEmojis text }

/-- Source `analyzeEngagement` (source lines 12–54).  The guard is the source's
`!text || text.trim().length === 0`; the `type` parameter only feeds a log
line and is omitted. -/
def analyzeEngagement (text : String) : AnalysisResult :=
  if text.data = [] ∨ (jsTrim text.data).length = 0 then
    { score := 0
      grade := ("F")
      suggestions := [SuggestionItem.text ("No text content found to analyze")]
      analysis := AnalysisPayload.canned defaultCannedAnalysis
      optimizedContent := Option.none }
  else
    let analysis := buildAnalysis text
    let score := calculateEngagementScore analysis
    { score := score
      grade := getEngagementGrade score
      suggestions := (generateSuggestions analysis).map SuggestionItem.card
      analysis := AnalysisPayload.full analysis
      optimizedContent := Option.some (generateOptimizedVersion text analysis) }

/-! Supporting lemmas about the string helpers. -/

lemma splitGo_ne_nil (p : Char → Bool) (l : List Char) (st : Option (List Char)) :
    splitGo p l st ≠ [] := by
  induction l generalizing st with
  | nil => cases st <;> simp [splitGo]
  | cons c rest ih =>
      cases st with
      | none =>
          simp only [splitGo]
          split
          · exact ih _
          · exact ih _
      | some acc =>
          simp only [splitGo]
          split
          · simp
          · exact ih _

lemma splitRe_length_pos (p : Char → Bool) (l : List Char) :
    0 < (splitRe p l).length :=
  List.length_pos.mpr (splitGo_ne_nil p l (Option.some []))

lemma jsTrim_eq_nil_of_allWs (l : List Char) (h : ∀ c ∈ l, isWs c = true) :
    jsTrim l = [] := by
  have h1 : l.dropWhile isWs = [] := List.dropWhile_eq_nil_iff.mpr h
  simp [jsTrim, h1]

lemma allWs_of_jsTrim_eq_nil (l : List Char) (h : jsTrim l = []) :
    ∀ c ∈ l, isWs c = true := by
  intro c hc
  have h2 : (l.dropWhile isWs).reverse.dropWhile isWs = [] := by
    have := congrArg List.reverse h
    simpa [jsTrim] using this
  have h4 : ∀ x ∈ l.dropWhile isWs, isWs x = true := by
    intro x hx
    exact List.dropWhile_eq_nil_iff.mp h2 x (List.mem_reverse.mpr hx)
  have h5 : l.takeWhile isWs ++ l.dropWhile isWs = l :=
    List.takeWhile_append_dropWhile isWs l
  rw [← h5] at hc
  rcases List.mem_append.mp hc with h6 | h6
  · exact List.mem_takeWhile_imp h6
  · exact h4 c h6

lemma scanGo_out_eq_nil_of_allWs (mark : Char) (hm : isWs mark = false)
    (l : List Char) (h : ∀ c ∈ l, isWs c = true) :
    scanGo mark l ScanState.out = [] := by
  induction l with
  | nil => simp [scanGo]
  | cons c rest ih =>
      have hc : ¬c = mark := by
        intro e
        rw [e] at h
        have := h mark (List.mem_cons_self mark rest)
        rw [hm] at this
        cases this
      simp only [scanGo]
      rw [if_neg hc]
      exact ih (fun d hd => h d (List.mem_cons_of_mem c hd))

lemma scanTags_eq_nil_of_allWs (mark : Char) (hm : isWs mark = false)
    (l : List Char) (h : ∀ c ∈ l, isWs c = true) : scanTags mark l = [] :=
  scanGo_out_eq_nil_of_allWs mark hm l h

lemma splitGo_acc_nonempty (p : Char → Bool) (l : List Char) (acc : List Char)
    (ha : acc ≠ []) : ∃ seg ∈ splitGo p l (Option.some acc), seg ≠ [] := by
  induction l generalizing acc with
  | nil => exact ⟨acc.reverse, by simp [splitGo], by simpa using ha⟩
  | cons c rest ih =>
      by_cases h : p c
      · refine ⟨acc.reverse, ?_, by simpa using ha⟩
        simp only [splitGo]
        rw [if_pos h]
        exact List.mem_cons_self _ _
      · obtain ⟨seg, hs, hne⟩ := ih (c :: acc) (by simp)
        refine ⟨seg, ?_, hne⟩
        simp only [splitGo]
        rw [if_neg h]
        exact hs

lemma splitGo_witness (p : Char → Bool) (l : List Char) :
    (∃ c ∈ l, p c = false) → ∀ st, ∃ seg ∈ splitGo p l st, seg ≠ [] := by
  induction l with
  | nil => intro hw; simp at hw
  | cons c rest ih =>
      intro hw st
      by_cases h : p c
      · obtain ⟨x, hx, hpx⟩ := hw
        have hxr : x ∈ rest := by
          rcases List.mem_cons.mp hx with rfl | hr
          · rw [h] at hpx; cases hpx
          · exact hr
        have hrec := ih ⟨x, hxr, hpx⟩
        cases st with
        | none =>
            simp only [splitGo]
            rw [if_pos h]
            exact hrec Option.none
        | some acc =>
            simp only [splitGo]
            rw [if_pos h]
            obtain ⟨seg, hs, hne⟩ := hrec Option.none
            exact ⟨seg, List.mem_cons_of_mem _ hs, hne⟩
      · cases st with
        | none =>
            simp only [splitGo]
            rw [if_neg h]
            exact splitGo_acc_nonempty p rest [c] (by simp)
        | some acc =>
            simp only [splitGo]
            rw [if_neg h]
            exact splitGo_acc_nonempty p rest (c :: acc) (by simp)

/-- The count of non-empty whitespace-delimited tokens (the "word tokens" of
the density denominators; spec glossary). -/
def wordTokenCount (l : List Char) : ℕ :=
  ((splitRe isWs l).filter (fun w => 0 < w.length)).length

lemma allWs_of_wordTokenCount_zero (l : List Char) (h : wordTokenCount l = 0) :
    ∀ c ∈ l, isWs c = true := by
  intro c hc
  by_contra hw
  have hw' : isWs c = false := by
    cases hcc : isWs c
    · rfl
    · exact absurd hcc hw
  obtain ⟨seg, hs, hne⟩ := splitGo_witness isWs l ⟨c, hc, hw'⟩ (Option.some [])
  have : seg ∈ (splitRe isWs l).filter (fun w => 0 < w.length) := by
    rw [List.mem_filter]
    exact ⟨hs, by simpa [List.length_pos] using hne⟩
  rw [wordTokenCount, List.length_eq_zero] at h
  rw [h] at this
  cases this

lemma ws_not_emoji (c : Char) (h : isWs c = true) : isEmojiChar c = false := by
  simp only [isWs, Bool.or_eq_true, beq_iff_eq, Bool.and_eq_true,
    decide_eq_true_eq] at h
  simp only [isEmojiChar, Bool.or_eq_false_iff, Bool.and_eq_false_iff,
    decide_eq_false_iff_not, not_le]
  omega

lemma filter_emoji_eq_nil_of_allWs (l : List Char)
    (h : ∀ c ∈ l, isWs c = true) : l.filter isEmojiChar = [] := by
  induction l with
  | nil => rfl
  | cons c rest ih =>
      rw [List.filter_cons, if_neg (by simp [ws_not_emoji c (h c (List.mem_cons_self c rest))])]
      exact ih (fun d hd => h d (List.mem_cons_of_mem c hd))

/-! Claim theorems. -/

/-- C1: for every string input, `analyzeEngagement` returns a score in the
integer range [0, 100], and the grade is exactly the letter determined by the
documented thresholds applied to that score. -/
theorem c1_score_range_and_grade (text : String) :
    0 ≤ (analyzeEngagement text).score ∧ (analyzeEngagement text).score ≤ 100 ∧
    (analyzeEngagement text).grade =
      (if 90 ≤ (analyzeEngagement text).score then ("A+")
       else if 80 ≤ (analyzeEngagement text).score then ("A")
       else if 70 ≤ (analyzeEngagement text).score then ("B")
       else if 60 ≤ (analyzeEngagement text).score then ("C")
       else if 50 ≤ (analyzeEngagement text).score then ("D")
       else ("F")) := by
  by_cases h : text.data = [] ∨ (jsTrim text.data).length = 0
  · rw [analyzeEngagement, if_pos h]
    norm_num
  · rw [analyzeEngagement, if_neg h]
    refine ⟨?_, ?_, rfl⟩
    · unfold calculateEngagementScore
      exact le_max_left _ _
    · unfold calculateEngagementScore
      exact max_le (by norm_num) (min_le_left _ _)

/-- C2: for every input that is empty or consists only of whitespace,
`analyzeEngagement` takes the bypass branch and returns score 0, grade F, the
single string suggestion, and no `optimizedContent`. -/
theorem c2_empty_or_whitespace (text : String)
    (h : ∀ c ∈ text.data, isWs c = true) :
    analyzeEngagement text =
      { score := 0
        grade := ("F")
        suggestions := [SuggestionItem.text ("No text content found to analyze")]
        analysis := AnalysisPayload.canned defaultCannedAnalysis
        optimizedContent := Option.none } := by
  have ht : jsTrim text.data = [] := jsTrim_eq_nil_of_allWs _ h
  rw [analyzeEngagement, if_pos (Or.inr (by rw [ht]; rfl))]

theorem c2_witness :
    (analyzeEngagement ("   ")).score = 0 ∧
    (analyzeEngagement ("   ")).grade = ("F") ∧
    (analyzeEngagement ("   ")).suggestions =
      [SuggestionItem.text ("No text content found to analyze")] ∧
    (analyzeEngagement ("   ")).optimizedContent = Option.none := by
  rw [c2_empty_or_whitespace ("   ") (by decide)]
  exact ⟨rfl, rfl, rfl, rfl⟩

/-- C10: the length feature's platform is `twitter` exactly when the character
count is at most 280 and `linkedin` otherwise; the declared `general` default
is never produced, the two branches being exhaustive. -/
theorem c10_platform_dichotomy (text : String) :
    ((analyzeLength text).platform = ("twitter") ∧ text.data.length ≤ 280 ∨
     (analyzeLength text).platform = ("linkedin") ∧ 280 < text.data.length) ∧
    (analyzeLength text).platform ≠ ("general") := by
  rw [analyzeLength]
  by_cases h : 280 < text.data.length
  · rw [if_pos h]
    exact ⟨Or.inr ⟨rfl, h⟩, (by decide : ¬(("linkedin") = ("general")))⟩
  · rw [if_neg h, if_pos (by omega : text.data.length ≤ 280)]
    exact ⟨Or.inl ⟨rfl, by omega⟩, (by decide : ¬(("twitter") = ("general")))⟩

/-- The sequential adjustments of `calculateEngagementScore` collapse to a
single clamped sum. -/
lemma calculateEngagementScore_eq_sum (a : Analysis) :
    calculateEngagementScore a =
      max 0 (min 100 (50
        + (if 2 ≤ a.hashtags.found ∧ a.hashtags.found ≤ 5 then 15
           else if 1 ≤ a.hashtags.found then 10 else -10)
        + (if a.callToAction.strength = ("strong") then 20
           else if a.callToAction.strength = ("medium") then 15
           else if a.callToAction.strength = ("weak") then 10 else -15)
        + (if a.length.status = ("good") then 15
           else if a.length.status = ("too_long") then -5
           else if a.length.status = ("too_short") then -10 else 0)
        + jsRound ((a.readability.score : ℚ) * (2 / 10))
        + (if a.sentiment.engagement = ("high") then 15
           else if a.sentiment.engagement = ("medium") then 10 else -5)
        + (if 1 ≤ a.mentions.found ∧ a.mentions.found ≤ 3 then 10
           else if 3 < a.mentions.found then -5 else 0)
        + (if 1 ≤ a.emojis.found ∧ a.emojis.found ≤ 3 then 5 else 0))) := rfl

/-- C3: for non-empty, non-whitespace input, the score is exactly the clamped
base-50 weighted sum of the documented per-feature adjustments. -/
theorem c3_score_is_weighted_sum (text : String) (h : jsTrim text.data ≠ []) :
    (analyzeEngagement text).score =
      max 0 (min 100 (50
        + (if 2 ≤ (analyzeHashtags text).found ∧ (analyzeHashtags text).found ≤ 5 then 15
           else if 1 ≤ (analyzeHashtags text).found then 10 else -10)
        + (if (analyzeCallToAction text).strength = ("strong") then 20
           else if (analyzeCallToAction text).strength = ("medium") then 15
           else if (analyzeCallToAction text).strength = ("weak") then 10 else -15)
        + (if (analyzeLength text).status = ("good") then 15
           else if (analyzeLength text).status = ("too_long") then -5
           else if (analyzeLength text).status = ("too_short") then -10 else 0)
        + jsRound (((analyzeReadability text).score : ℚ) * (2 / 10))
        + (if (analyzeSentiment text).engagement = ("high") then 15
           else if (analyzeSentiment text).engagement = ("medium") then 10 else -5)
        + (if 1 ≤ (analyzeMentions text).found ∧ (analyzeMentions text).found ≤ 3 then 10
           else if 3 < (analyzeMentions text).found then -5 else 0)
        + (if 1 ≤ (analyzeEmojis text).found ∧ (analyzeEmojis text).found ≤ 3 then 5
           else 0))) := by
  have hg : ¬(text.data = [] ∨ (jsTrim text.data).length = 0) := by
    rintro (h1 | h2)
    · exact h (by rw [jsTrim, h1]; rfl)
    · exact h (List.length_eq_zero.mp h2)
  rw [analyzeEngagement, if_neg hg]
  exact calculateEngagementScore_eq_sum (buildAnalysis text)

theorem c3_witness :
    (analyzeEngagement ("hello")).score =
      max 0 (min 100 (50
        + (if 2 ≤ (analyzeHashtags ("hello")).found ∧ (analyzeHashtags ("hello")).found ≤ 5 then 15
           else if 1 ≤ (analyzeHashtags ("hello")).found then 10 else -10)
        + (if (analyzeCallToAction ("hello")).strength = ("strong") then 20
           else if (analyzeCallToAction ("hello")).strength = ("medium") then 15
           else if (analyzeCallToAction ("hello")).strength = ("weak") then 10 else -15)
        + (if (analyzeLength ("hello")).status = ("good") then 15
           else if (analyzeLength ("hello")).status = ("too_long") then -5
           else if (analyzeLength ("hello")).status = ("too_short") then -10 else 0)
        + jsRound (((analyzeReadability ("hello")).score : ℚ) * (2 / 10))
        + (if (analyzeSentiment ("hello")).engagement = ("high") then 15
           else if (analyzeSentiment ("hello")).engagement = ("medium") then 10 else -5)
        + (if 1 ≤ (analyzeMentions ("hello")).found ∧ (analyzeMentions ("hello")).found ≤ 3 then 10
           else if 3 < (analyzeMentions ("hello")).found then -5 else 0)
        + (if 1 ≤ (analyzeEmojis ("hello")).found ∧ (analyzeEmojis ("hello")).found ≤ 3 then 5
           else 0))) :=
  c3_score_is_weighted_sum ("hello") (by decide)

/-- C6: replacing a strength-`none` call-to-action record by a strength-
`strong` one, all other feature records held fixed, never decreases the
engagement score. -/
theorem c6_strong_cta_monotone (a : Analysis) (ws : List (List Char)) (k : ℕ)
    (h1 : a.callToAction.strength = ("none"))
    (_h2 : a.callToAction.found = false) :
    calculateEngagementScore a ≤
      calculateEngagementScore
        { a with callToAction :=
            { found := true, strength := ("strong"), words := ws, count := k } } := by
  rw [calculateEngagementScore_eq_sum, calculateEngagementScore_eq_sum]
  dsimp only
  rw [h1]
  rw [if_neg (by decide : ¬(("none") = ("strong"))),
    if_neg (by decide : ¬(("none") = ("medium"))),
    if_neg (by decide : ¬(("none") = ("weak"))),
    if_pos (rfl : ("strong") = ("strong"))]
  apply max_le_max le_rfl
  apply min_le_min le_rfl
  have h35 : (-15 : ℤ) ≤ 20 := by norm_num
  linarith

theorem c6_witness :
    calculateEngagementScore (buildAnalysis ("hello")) ≤
      calculateEngagementScore
        { buildAnalysis ("hello") with callToAction :=
            { found := true, strength := ("strong"), words := [], count := 3 } } :=
  c6_strong_cta_monotone (buildAnalysis ("hello")) [] 3 (by decide) (by decide)

/-- Sequential pushes collapse to the ordered concatenation of the seven
rule blocks. -/
lemma generateSuggestions_eq_blocks (a : Analysis) :
    generateSuggestions a =
      (if a.hashtags.found = 0 then [sugAddHashtags]
       else if 5 < a.hashtags.found then [sugReduceHashtags] else []) ++
      (if a.callToAction.found = false then [sugAddCTA]
       else if a.callToAction.strength = ("weak") then [sugStrengthenCTA] else []) ++
      (if a.length.status = ("too_long") then [sugShortenContent]
       else if a.length.status = ("too_short") then [sugAddContext] else []) ++
      (if a.mentions.found = 0 then [sugTagPeople] else []) ++
      (if a.emojis.found = 0 then [sugAddEmojis] else []) ++
      (if a.readability.level = ("difficult") then [sugImproveReadability] else []) ++
      (if a.sentiment.engagement = ("low") then [sugEngagingLanguage] else []) := by
  unfold generateSuggestions
  simp only [List.nil_append, List.append_assoc]

/-- C4: for non-empty, non-whitespace input the suggestions list is exactly
the ordered concatenation of the rule blocks (hashtags, call-to-action,
length, mentions, emojis, readability, sentiment), each appending at most one
suggestion when its trigger holds; the two hashtag triggers are mutually
exclusive, as are the two length triggers; and every suggestion carries its
documented priority. -/
theorem c4_suggestions_structure (text : String) (h : jsTrim text.data ≠ []) :
    (analyzeEngagement text).suggestions =
      ((if (analyzeHashtags text).found = 0 then [sugAddHashtags]
        else if 5 < (analyzeHashtags text).found then [sugReduceHashtags] else []) ++
       (if (analyzeCallToAction text).found = false then [sugAddCTA]
        else if (analyzeCallToAction text).strength = ("weak") then [sugStrengthenCTA]
        else []) ++
       (if (analyzeLength text).status = ("too_long") then [sugShortenContent]
        else if (analyzeLength text).status = ("too_short") then [sugAddContext]
        else []) ++
       (if (analyzeMentions text).found = 0 then [sugTagPeople] else []) ++
       (if (analyzeEmojis text).found = 0 then [sugAddEmojis] else []) ++
       (if (analyzeReadability text).level = ("difficult") then [sugImproveReadability]
        else []) ++
       (if (analyzeSentiment text).engagement = ("low") then [sugEngagingLanguage]
        else [])).map SuggestionItem.card ∧
    ¬((analyzeHashtags text).found = 0 ∧ 5 < (analyzeHashtags text).found) ∧
    ¬((analyzeLength text).status = ("too_long") ∧
      (analyzeLength text).status = ("too_short")) ∧
    sugAddHashtags.priority = ("high") ∧
    sugReduceHashtags.priority = ("medium") ∧
    sugAddCTA.priority = ("high") ∧
    sugStrengthenCTA.priority = ("medium") ∧
    sugShortenContent.priority = ("medium") ∧
    sugAddContext.priority = ("low") ∧
    sugTagPeople.priority = ("medium") ∧
    sugAddEmojis.priority = ("low") ∧
    sugImproveReadability.priority = ("high") ∧
    sugEngagingLanguage.priority = ("medium") := by
  have hg : ¬(text.data = [] ∨ (jsTrim text.data).length = 0) := by
    rintro (h1 | h2)
    · exact h (by rw [jsTrim, h1]; rfl)
    · exact h (List.length_eq_zero.mp h2)
  refine ⟨?_, ?_, ?_, rfl, rfl, rfl, rfl, rfl, rfl, rfl, rfl, rfl, rfl⟩
  · rw [analyzeEngagement, if_neg hg]
    dsimp only
    rw [generateSuggestions_eq_blocks]
    exact rfl
  · rintro ⟨e1, e2⟩
    omega
  · rintro ⟨e1, e2⟩
    rw [e1] at e2
    exact absurd e2 (by decide)

theorem c4_witness :
    ¬((analyzeHashtags ("hello")).found = 0 ∧ 5 < (analyzeHashtags ("hello")).found) :=
  (c4_suggestions_structure ("hello") (by decide)).2.1

lemma string_append_empty (s : String) : s ++ ("") = s := by
  cases s with
  | mk data => exact congrArg String.mk (List.append_nil data)

lemma string_append_assoc (a b c : String) : a ++ b ++ c = a ++ (b ++ c) := by
  cases a with
  | mk da =>
      cases b with
      | mk db =>
          cases c with
          | mk dc => exact congrArg String.mk (List.append_assoc da db dc)

lemma jsTrim_ne_nil_of_hashtag_found (text : String)
    (h : 0 < (analyzeHashtags text).found) : jsTrim text.data ≠ [] := by
  intro e
  have hws := allWs_of_jsTrim_eq_nil _ e
  have hscan : scanTags '#' text.data = [] :=
    scanTags_eq_nil_of_allWs '#' (by decide) _ hws
  have h' : 0 < (scanTags '#' text.data).length := h
  rw [hscan] at h'
  exact absurd h' (by simp)

/-- C5: when a hashtag and a call-to-action are both present the optimizer
returns the trimmed text unchanged; in general it appends the generic hashtag
block when hashtags are missing and the generic call-to-action sentence when a
call-to-action is missing. -/
theorem c5_optimizer_behaviour (text : String) :
    ((0 < (buildAnalysis text).hashtags.found ∧
      (buildAnalysis text).callToAction.found = true) →
      (analyzeEngagement text).optimizedContent = Option.some (jsTrimS text)) ∧
    generateOptimizedVersion text (buildAnalysis text) =
      jsTrimS text
        ++ (if (buildAnalysis text).hashtags.found = 0 then
              ("\n\n") ++ String.intercalate (" ")
                [("#content"), ("#engagement"), ("#socialmedia")]
            else (""))
        ++ (if (buildAnalysis text).callToAction.found = false then
              ("\n\nWhat are your thoughts? Share in the comments! 👇")
            else ("")) := by
  constructor
  · rintro ⟨h1, h2⟩
    have hne : jsTrim text.data ≠ [] := jsTrim_ne_nil_of_hashtag_found text h1
    have hg : ¬(text.data = [] ∨ (jsTrim text.data).length = 0) := by
      rintro (e1 | e2)
      · exact hne (by rw [jsTrim, e1]; rfl)
      · exact hne (List.length_eq_zero.mp e2)
    rw [analyzeEngagement, if_neg hg]
    show Option.some (generateOptimizedVersion text (buildAnalysis text)) = _
    unfold generateOptimizedVersion
    dsimp only
    rw [if_neg (by omega : ¬(buildAnalysis text).hashtags.found = 0),
      if_neg (by simp [h2])]
  · unfold generateOptimizedVersion
    dsimp only
    split_ifs <;>
      simp only [string_append_empty, string_append_assoc]

theorem c5_witness :
    (analyzeEngagement ("Buy this now #deal")).optimizedContent =
      Option.some (jsTrimS ("Buy this now #deal")) :=
  (c5_optimizer_behaviour ("Buy this now #deal")).1 (by decide)


lemma analyzeHashtags_density_eq (text : String) :
    (analyzeHashtags text).density =
      Option.some ((((scanTags '#' text.data).length : ℚ) /
        (((splitRe isWs text.data).length : ℕ) : ℚ)) * 100) := by
  have hpos := splitRe_length_pos isWs text.data
  have h0 : (splitRe isWs text.data).length ≠ 0 := by omega
  have hden : (((splitRe isWs text.data).length : ℕ) : ℚ) ≠ 0 := by
    exact_mod_cast h0
  unfold analyzeHashtags
  dsimp only
  rw [jsDiv, if_neg hden]
  rfl

lemma analyzeEmojis_density_eq (text : String) :
    (analyzeEmojis text).density =
      Option.some ((((text.data.filter isEmojiChar).length : ℚ) /
        (((splitRe isWs text.data).length : ℕ) : ℚ)) * 100) := by
  have hpos := splitRe_length_pos isWs text.data
  have h0 : (splitRe isWs text.data).length ≠ 0 := by omega
  have hden : (((splitRe isWs text.data).length : ℕ) : ℚ) ≠ 0 := by
    exact_mod_cast h0
  unfold analyzeEmojis
  dsimp only
  rw [jsDiv, if_neg hden]
  rfl

/-- C7: the token list produced by the whitespace split is never empty, so the
hashtag and emoji densities are always plain rationals (never the `none` that
models JS `NaN`/undefined), and they are `0` whenever the input has no
non-empty word token. -/
theorem c7_density_no_nan (text : String) :
    0 < (splitRe isWs text.data).length ∧
    (∃ q, (analyzeHashtags text).density = Option.some q) ∧
    (∃ q, (analyzeEmojis text).density = Option.some q) ∧
    (wordTokenCount text.data = 0 →
      (analyzeHashtags text).density = Option.some 0 ∧
      (analyzeEmojis text).density = Option.some 0) := by
  refine ⟨splitRe_length_pos isWs text.data,
    ⟨_, analyzeHashtags_density_eq text⟩, ⟨_, analyzeEmojis_density_eq text⟩, ?_⟩
  intro h0
  have hws := allWs_of_wordTokenCount_zero text.data h0
  constructor
  · rw [analyzeHashtags_density_eq text,
      scanTags_eq_nil_of_allWs '#' (by decide) _ hws]
    norm_num
  · rw [analyzeEmojis_density_eq text, filter_emoji_eq_nil_of_allWs _ hws]
    norm_num

theorem c7_witness :
    (analyzeHashtags ("")).density = Option.some 0 ∧
    (analyzeEmojis ("")).density = Option.some 0 :=
  (c7_density_no_nan ("")).2.2.2 (by decide)

/-- Does the list start with a word character?  Helper for the spec-side
occurrence count below. -/
def nextIsWord : List Char → Bool
  | [] => false
  | d :: _ => isWordChar d

/-- Spec-side count for C8, following the claim's words: the number of
occurrences of the marker character followed by at least one word character. -/
def markCount (mark : Char) : List Char → ℕ
  | [] => 0
  | c :: rest =>
      (if c = mark ∧ nextIsWord rest = true then 1 else 0) + markCount mark rest

lemma nextIsWord_nil : nextIsWord [] = false := rfl

lemma nextIsWord_cons (d : Char) (l : List Char) : nextIsWord (d :: l) = isWordChar d := rfl

lemma markCount_cons (mark c : Char) (rest : List Char) :
    markCount mark (c :: rest) =
      (if c = mark ∧ nextIsWord rest = true then 1 else 0) + markCount mark rest := rfl

/-- The scanner state machine realises the spec-side occurrence count, for a
marker that is not itself a word character. -/
lemma scanGo_length_markCount (mark : Char) (hm : isWordChar mark = false)
    (l : List Char) :
    (scanGo mark l ScanState.out).length = markCount mark l ∧
    (scanGo mark l ScanState.mark).length = markCount mark (mark :: l) ∧
    (∀ acc, (scanGo mark l (ScanState.inside acc)).length = 1 + markCount mark l) := by
  induction l with
  | nil =>
      refine ⟨rfl, ?_, fun acc => rfl⟩
      simp [scanGo, markCount, nextIsWord]
  | cons c rest ih =>
      obtain ⟨ihA, ihB, ihC⟩ := ih
      by_cases hc : c = mark
      · subst hc
        refine ⟨?_, ?_, fun acc => ?_⟩ <;>
          simp [scanGo, markCount_cons, nextIsWord_cons, nextIsWord_nil, hm,
            ihA, ihB, ihC]
        all_goals omega
      · by_cases hw : isWordChar c
        · refine ⟨?_, ?_, fun acc => ?_⟩ <;>
            simp [scanGo, markCount_cons, nextIsWord_cons, hc, hw, ihA, ihB, ihC]
        · refine ⟨?_, ?_, fun acc => ?_⟩ <;>
            simp [scanGo, markCount_cons, nextIsWord_cons, hc, hw, ihA, ihB, ihC]
          all_goals omega

/-- C8: the hashtag and mention `found` fields equal the spec-side occurrence
counts, and the `recommended` fields are the documented maxima. -/
theorem c8_found_and_recommended (text : String) :
    (analyzeHashtags text).found = markCount '#' text.data ∧
    (analyzeHashtags text).recommended = max (analyzeHashtags text).found 3 ∧
    (analyzeMentions text).found = markCount '@' text.data ∧
    (analyzeMentions text).recommended = max (analyzeMentions text).found 2 := by
  refine ⟨?_, ?_, ?_, ?_⟩
  · exact (scanGo_length_markCount '#' (by decide) text.data).1
  · show (if (scanTags '#' text.data).length < 3 then 3
      else (scanTags '#' text.data).length) = max (scanTags '#' text.data).length 3
    split_ifs <;> omega
  · exact (scanGo_length_markCount '@' (by decide) text.data).1
  · show (if (scanTags '@' text.data).length < 2 then 2
      else (scanTags '@' text.data).length) = max (scanTags '@' text.data).length 2
    split_ifs <;> omega


lemma ctaStrength_mem (text : String) :
    (analyzeCallToAction text).strength = ("none") ∨
    (analyzeCallToAction text).strength = ("weak") ∨
    (analyzeCallToAction text).strength = ("medium") ∨
    (analyzeCallToAction text).strength = ("strong") := by
  unfold analyzeCallToAction
  dsimp only
  split_ifs <;> simp

lemma lengthStatus_mem (text : String) :
    (analyzeLength text).status = ("good") ∨
    (analyzeLength text).status = ("too_long") ∨
    (analyzeLength text).status = ("too_short") := by
  unfold analyzeLength
  dsimp only
  split_ifs <;> simp

lemma lengthPlatform_mem (text : String) :
    (analyzeLength text).platform = ("twitter") ∨
    (analyzeLength text).platform = ("linkedin") ∨
    (analyzeLength text).platform = ("general") := by
  unfold analyzeLength
  dsimp only
  split_ifs <;> simp

lemma readabilityLevel_mem (text : String) :
    (analyzeReadability text).level = ("excellent") ∨
    (analyzeReadability text).level = ("moderate") ∨
    (analyzeReadability text).level = ("difficult") ∨
    (analyzeReadability text).level = ("too_short") := by
  unfold analyzeReadability
  dsimp only
  split_ifs <;> simp

lemma readabilityComplexity_mem (text : String) :
    (analyzeReadability text).complexity = ("low") ∨
    (analyzeReadability text).complexity = ("medium") ∨
    (analyzeReadability text).complexity = ("high") := by
  unfold analyzeReadability
  dsimp only
  split_ifs <;> simp

lemma sentimentTone_mem (text : String) :
    (analyzeSentiment text).tone = ("neutral") ∨
    (analyzeSentiment text).tone = ("positive") ∨
    (analyzeSentiment text).tone = ("negative") := by
  unfold analyzeSentiment
  dsimp only
  split_ifs <;> simp

lemma sentimentEngagement_mem (text : String) :
    (analyzeSentiment text).engagement = ("low") ∨
    (analyzeSentiment text).engagement = ("medium") ∨
    (analyzeSentiment text).engagement = ("high") := by
  unfold analyzeSentiment
  dsimp only
  split_ifs <;> simp

/-- C9 counterexample: on the empty string the bypass branch returns the
canned analysis object, whose shape (source lines 18–25) carries only six
feature records and no `emojis` record, refuting the claim that every input
yields all seven records. -/
theorem c9_counterexample :
    (analyzeEngagement ("")).analysis = AnalysisPayload.canned defaultCannedAnalysis ∧
    payloadHasEmojiRecord (analyzeEngagement ("")).analysis = false := by
  constructor <;> rfl

/-- C9 (amended): for non-empty, non-whitespace input the analysis object is
the full seven-record object, one record per extractor, with every enum-like
field holding one of its documented values; for empty or all-whitespace input
the bypass branch returns the canned six-record object without an `emojis`
record. -/
theorem c9_amended_seven_records (text : String) (h : jsTrim text.data ≠ []) :
    (analyzeEngagement text).analysis = AnalysisPayload.full (buildAnalysis text) ∧
    payloadHasEmojiRecord (analyzeEngagement text).analysis = true ∧
    (buildAnalysis text).hashtags = analyzeHashtags text ∧
    (buildAnalysis text).mentions = analyzeMentions text ∧
    (buildAnalysis text).callToAction = analyzeCallToAction text ∧
    (buildAnalysis text).length = analyzeLength text ∧
    (buildAnalysis text).readability = analyzeReadability text ∧
    (buildAnalysis text).sentiment = analyzeSentiment text ∧
    (buildAnalysis text).emojis = analyzeEmojis text ∧
    ((analyzeCallToAction text).strength = ("none") ∨
     (analyzeCallToAction text).strength = ("weak") ∨
     (analyzeCallToAction text).strength = ("medium") ∨
     (analyzeCallToAction text).strength = ("strong")) ∧
    ((analyzeLength text).status = ("good") ∨
     (analyzeLength text).status = ("too_long") ∨
     (analyzeLength text).status = ("too_short")) ∧
    ((analyzeLength text).platform = ("twitter") ∨
     (analyzeLength text).platform = ("linkedin") ∨
     (analyzeLength text).platform = ("general")) ∧
    ((analyzeReadability text).level = ("excellent") ∨
     (analyzeReadability text).level = ("moderate") ∨
     (analyzeReadability text).level = ("difficult") ∨
     (analyzeReadability text).level = ("too_short")) ∧
    ((analyzeReadability text).complexity = ("low") ∨
     (analyzeReadability text).complexity = ("medium") ∨
     (analyzeReadability text).complexity = ("high")) ∧
    ((analyzeSentiment text).tone = ("neutral") ∨
     (analyzeSentiment text).tone = ("positive") ∨
     (analyzeSentiment text).tone = ("negative")) ∧
    ((analyzeSentiment text).engagement = ("low") ∨
     (analyzeSentiment text).engagement = ("medium") ∨
     (analyzeSentiment text).engagement = ("high")) := by
  have hg : ¬(text.data = [] ∨ (jsTrim text.data).length = 0) := by
    rintro (h1 | h2)
    · exact h (by rw [jsTrim, h1]; rfl)
    · exact h (List.length_eq_zero.mp h2)
  refine ⟨?_, ?_, rfl, rfl, rfl, rfl, rfl, rfl, rfl,
    ctaStrength_mem text, lengthStatus_mem text, lengthPlatform_mem text,
    readabilityLevel_mem text, readabilityComplexity_mem text,
    sentimentTone_mem text, sentimentEngagement_mem text⟩
  · rw [analyzeEngagement, if_neg hg]
  · rw [analyzeEngagement, if_neg hg]
    rfl

theorem c9_witness :
    payloadHasEmojiRecord (analyzeEngagement ("hi")).analysis = true :=
  (c9_amended_seven_records ("hi") (by decide)).2.1


theorem c1_witness :
    0 ≤ (analyzeEngagement ("abc")).score ∧ (analyzeEngagement ("abc")).score ≤ 100 ∧
    (analyzeEngagement ("abc")).grade =
      (if 90 ≤ (analyzeEngagement ("abc")).score then ("A+")
       else if 80 ≤ (analyzeEngagement ("abc")).score then ("A")
       else if 70 ≤ (analyzeEngagement ("abc")).score then ("B")
       else if 60 ≤ (analyzeEngagement ("abc")).score then ("C")
       else if 50 ≤ (analyzeEngagement ("abc")).score then ("D")
       else ("F")) :=
  c1_score_range_and_grade ("abc")

theorem c8_witness :
    (analyzeHashtags ("#a @b")).found = markCount '#' ("#a @b").data ∧
    (analyzeHashtags ("#a @b")).recommended = max (analyzeHashtags ("#a @b")).found 3 ∧
    (analyzeMentions ("#a @b")).found = markCount '@' ("#a @b").data ∧
    (analyzeMentions ("#a @b")).recommended = max (analyzeMentions ("#a @b")).found 2 :=
  c8_found_and_recommended ("#a @b")

theorem c10_witness :
    ((analyzeLength ("hi")).platform = ("twitter") ∧ ("hi").data.length ≤ 280 ∨
     (analyzeLength ("hi")).platform = ("linkedin") ∧ 280 < ("hi").data.length) ∧
    (analyzeLength ("hi")).platform ≠ ("general") :=
  c10_platform_dichotomy ("hi")


end Engagement
